import Mathlib

/-!
Verification of the analytic Bessel-integral evaluation engine (`kint.py`).

The program evaluates closed-form antiderivatives of `x^n j_l(ax) j_l(bx)`
for `n ∈ {4,6}` (table) using arbitrary-precision arithmetic (mpmath).

Modelling choices:
* mpmath numbers are modelled as exact rationals `ℚ`; the transcendental
  operations `mp.cos`, `mp.sin` and the composition `mp.floor ∘ mp.log10`
  (which the code only uses combined) together with the global working
  precision `mp.dps` are abstracted into an environment record `Env`;
  theorems quantify over every environment.
* Python exceptions are modelled by `Except KintError`; the exception
  classes are named after the specification's error taxonomy:
  `ZeroDivisionError` (from mpmath division / power by zero) is
  `degenerateInputs`, the `sys.exit("Insufficient precision")` abort is
  `insufficientPrecision`, a dictionary miss (`KeyError`) is `notFound`,
  and a numpy out-of-bounds assignment (`IndexError`) is `indexError`.
* The monomial cache `Polynomial.stored` is modelled as an association
  list; evaluation reads through it (`get_list`).  The Python code also
  writes the freshly computed list back into the cache; since the written
  value is exactly `_make_list`'s result this write is invisible to every
  computed value, which is proved below as the cache-coherence theorems.
-/

namespace Kint

/-- Error taxonomy of the specification, mapped from the Python exceptions
raised by `kint.py` (see module comment). -/
inductive KintError where
  | degenerateInputs
  | insufficientPrecision
  | notFound
  | indexError
deriving DecidableEq

/-- Ambient mpmath state used by `KnlInt.evaluate`: the working precision
`mp.dps` and the transcendental operations, abstracted as functions on `ℚ`.
`floorLog10` models the combination `mp.floor (mp.log10 _)`. -/
structure Env where
  dps : ℤ
  cos : ℚ → ℚ
  sin : ℚ → ℚ
  floorLog10 : ℚ → ℤ

/-- `Polynomial.__init__`: stores `a`, `b`, `a2 = a*a`, `b2 = b*b` and the
memo dictionary `stored` (here an association list `degree ↦ monomials`). -/
structure Polynomial where
  a : ℚ
  b : ℚ
  a2 : ℚ
  b2 : ℚ
  stored : List (ℕ × List ℚ)
deriving DecidableEq

/-- `Polynomial(a, b)` constructor: `a2 = a*a`, `b2 = b*b`, empty cache. -/
def mkPolynomial (a b : ℚ) : Polynomial :=
  ⟨a, b, a * a, b * b, []⟩

/-- `np.cumprod` with a running accumulator. -/
def cumprodAux : ℚ → List ℚ → List ℚ
  | _, [] => []
  | acc, x :: t => (acc * x) :: cumprodAux (acc * x) t

/-- `np.cumprod`: partial products of a list. -/
def cumprod (l : List ℚ) : List ℚ := cumprodAux 1 l

/-- The assignment `arr[0] = v`; fails (numpy `IndexError`) on an empty
array, which happens in `_make_list` exactly when `n = 0`. -/
def setIdx0 : List ℚ → ℚ → Option (List ℚ)
  | [], _ => none
  | _ :: t, v => some (v :: t)

/-- `Polynomial._make_list(n)`: builds
`[a^(2(n-1)), a^(2(n-2))·b^2, …, b^(2(n-1))]` via two cumulative products,
one reversed (`np.flipud`), multiplied elementwise. -/
def Polynomial.make_list (p : Polynomial) (n : ℕ) : Option (List ℚ) := do
  let ap ← setIdx0 (List.replicate n p.a2) 1
  let bp ← setIdx0 (List.replicate n p.b2) 1
  some (List.zipWith (· * ·) (cumprod ap).reverse (cumprod bp))

/-- Dictionary lookup `n in self.stored` / `self.stored[n]`. -/
def lookupStored (n : ℕ) : List (ℕ × List ℚ) → Option (List ℚ)
  | [] => none
  | (m, L) :: t => if n = m then some L else lookupStored n t

/-- `Polynomial.get_list(n)`: return the cached list if present, otherwise
compute it with `_make_list`. -/
def Polynomial.get_list (p : Polynomial) (n : ℕ) : Except KintError (List ℚ) :=
  match lookupStored n p.stored with
  | some L => .ok L
  | none =>
    match p.make_list n with
    | some L => .ok L
    | none => .error .indexError

/-- `Polynomial.eval_poly(coeff)`: `np.sum(coeff * self.get_list(len(coeff)))`. -/
def Polynomial.eval_poly (p : Polynomial) (coeff : List ℚ) : Except KintError ℚ := do
  let L ← p.get_list coeff.length
  return (List.zipWith (· * ·) coeff L).sum

/-- A `Term(c, n, m, coeffs)` of the table: `c · x^n · (ab)^m · poly(a,b)`. -/
structure Term where
  c : ℚ
  n : ℤ
  m : ℤ
  coeffs : List ℚ
deriving DecidableEq

/-- mpmath power `x ** n` for integer exponents: raises `ZeroDivisionError`
on a negative power of zero. -/
def mpow (x : ℚ) (n : ℤ) : Except KintError ℚ :=
  if x = 0 ∧ n < 0 then .error .degenerateInputs else .ok (x ^ n)

/-- mpmath division: raises `ZeroDivisionError` on a zero divisor. -/
def mdiv (x y : ℚ) : Except KintError ℚ :=
  if y = 0 then .error .degenerateInputs else .ok (x / y)

/-- The `abm` computation of `Term.evaluate`: `abm = mpf(1)`, overwritten by
`(poly.a * poly.b) ** m` only when `m != 0` (no power computed for `m = 0`). -/
def Term.abmCalc (t : Term) (p : Polynomial) : Except KintError ℚ :=
  if t.m = 0 then .ok 1 else mpow (p.a * p.b) t.m

/-- `Term.evaluate(x, poly)`: `c * x**n * abm * poly.eval_poly(coeffs)`. -/
def Term.evaluate (t : Term) (x : ℚ) (p : Polynomial) : Except KintError ℚ := do
  let xn ← mpow x t.n
  let abm ← t.abmCalc p
  let pv ← p.eval_poly t.coeffs
  return t.c * xn * abm * pv

/-- A `Part`: an ordered list of `Term`s. -/
structure Part where
  terms : List Term
deriving DecidableEq

/-- Python `sum([term.evaluate(x, poly) for term in terms])`: left fold
starting from `0`, propagating the first raised exception. -/
def sumTerms (x : ℚ) (p : Polynomial) (acc : ℚ) : List Term → Except KintError ℚ
  | [] => .ok acc
  | t :: ts => do
      let v ← t.evaluate x p
      sumTerms x p (acc + v) ts

/-- `Part.evaluate(x, poly)`. -/
def Part.evaluate (pt : Part) (x : ℚ) (p : Polynomial) : Except KintError ℚ :=
  sumTerms x p 0 pt.terms

/-- `KnlInt(n, l, csum, cdiff, ssum, sdiff)`. -/
structure KnlInt where
  n : ℤ
  l : ℤ
  csum : Part
  cdiff : Part
  ssum : Part
  sdiff : Part
deriving DecidableEq

/-- `KnlInt.evaluate(x, poly)`: evaluates the four parts, combines them with
the trigonometric factors of `(a+b)x` and `(a-b)x`, normalizes by
`0.25/(ab)^(l+1)`, runs the precision-loss guard and returns the sum. -/
def KnlInt.evaluate (env : Env) (k : KnlInt) (x : ℚ) (p : Polynomial) :
    Except KintError ℚ := do
  let csum ← k.csum.evaluate x p
  let cdiff ← k.cdiff.evaluate x p
  let ssum ← k.ssum.evaluate x p
  let sdiff ← k.sdiff.evaluate x p
  let abl ← mpow (p.a * p.b) (k.l + 1)
  let apb := p.a + p.b
  let amb := p.a - p.b
  let dcp ← mpow apb (k.n - 2)
  let cpterm ← mdiv (env.cos (x * apb) * (csum + cdiff)) dcp
  let dcm ← mpow amb (k.n - 2)
  let cmterm ← mdiv (env.cos (x * amb) * (csum - cdiff)) dcm
  let dsp ← mpow apb (k.n - 1)
  let spterm ← mdiv (env.sin (x * apb) * (ssum + sdiff)) dsp
  let dsm ← mpow amb (k.n - 1)
  let smterm ← mdiv (env.sin (x * amb) * (ssum - sdiff)) dsm
  let q ← mdiv (1 / 4 : ℚ) abl
  let u1 := q * cpterm
  let u2 := q * cmterm
  let u3 := q * spterm
  let u4 := q * smterm
  let maxdigits := env.floorLog10 (|u1| + |u2| + |u3| + |u4|)
  let result := u1 + u2 + u3 + u4
  let resdigits := env.floorLog10 |result|
  let precRemaining := env.dps - (maxdigits - resdigits)
  if precRemaining < 13 then .error .insufficientPrecision else return result

/-- Table entry for `(n, l) = (4, 0)` of `integrals` in `kint.py`. -/
def knl_4_0 : KnlInt :=
  ⟨4, 0,
   ⟨[]⟩,
   ⟨[⟨-4, 1, 0, [1]⟩]⟩,
   ⟨[⟨-4, 2, 1, [1]⟩]⟩,
   ⟨[⟨4, 0, 0, [1]⟩, ⟨-2, 2, 0, [1, 1]⟩]⟩⟩

/-- Table entry for `(n, l) = (4, 1)` of `integrals` in `kint.py`. -/
def knl_4_1 : KnlInt :=
  ⟨4, 1,
   ⟨[⟨8, 1, 1, [1]⟩]⟩,
   ⟨[⟨2, 1, 0, [1, 1]⟩]⟩,
   ⟨[⟨-12, 0, 1, [1]⟩, ⟨2, 2, 1, [1, 1]⟩]⟩,
   ⟨[⟨4, 2, 2, [1]⟩, ⟨-4, 0, 0, [1, 1]⟩]⟩⟩

/-- Table entry for `(n, l) = (4, 2)` of `integrals` in `kint.py`. -/
def knl_4_2 : KnlInt :=
  ⟨4, 2,
   ⟨[⟨36, -1, 1, [1]⟩, ⟨-6, 1, 1, [1, 1]⟩]⟩,
   ⟨[⟨-16, 1, 2, [1]⟩, ⟨18, -1, 0, [1, 1]⟩]⟩,
   ⟨[⟨-4, 2, 3, [1]⟩, ⟨36, 0, 1, [1, 1]⟩]⟩,
   ⟨[⟨-2, 2, 2, [1, 1]⟩, ⟨2, 0, 0, [3, 32, 3]⟩]⟩⟩

/-- Table entry for `(n, l) = (4, 3)` of `integrals` in `kint.py`. -/
def knl_4_3 : KnlInt :=
  ⟨4, 3,
   ⟨[⟨300, -3, 1, [1]⟩, ⟨28, 1, 3, [1]⟩, ⟨-210, -1, 1, [1, 1]⟩]⟩,
   ⟨[⟨150, -3, 0, [1, 1]⟩, ⟨12, 1, 2, [1, 1]⟩, ⟨-30, -1, 0, [1, 12, 1]⟩]⟩,
   ⟨[⟨600, -2, 1, [1, 1]⟩, ⟨2, 2, 3, [1, 1]⟩, ⟨-2, 0, 1, [15, 116, 15]⟩]⟩,
   ⟨[⟨4, 2, 4, [1]⟩, ⟨-144, 0, 2, [1, 1]⟩, ⟨150, -2, 0, [1, 6, 1]⟩]⟩⟩

/-- Table entry for `(n, l) = (4, 4)` of `integrals` in `kint.py`. -/
def knl_4_4 : KnlInt :=
  ⟨4, 4,
   ⟨[⟨8820, -5, 1, [1]⟩, ⟨-7770, -3, 1, [1, 1]⟩, ⟨-20, 1, 3, [1, 1]⟩, ⟨30, -1, 1, [7, 60, 7]⟩]⟩,
   ⟨[⟨-44, 1, 4, [1]⟩, ⟨4410, -5, 0, [1, 1]⟩, ⟨1110, -1, 2, [1, 1]⟩, ⟨-420, -3, 0, [4, 29, 4]⟩]⟩,
   ⟨[⟨-4, 2, 5, [1]⟩, ⟨17640, -4, 1, [1, 1]⟩, ⟨400, 0, 3, [1, 1]⟩, ⟨-210, -2, 1, [11, 50, 11]⟩]⟩,
   ⟨[⟨-2, 2, 4, [1, 1]⟩, ⟨4410, -4, 0, [1, 6, 1]⟩, ⟨-210, -2, 0, [1, 35, 35, 1]⟩, ⟨6, 0, 2, [15, 104, 15]⟩]⟩⟩

/-- Table entry for `(n, l) = (4, 5)` of `integrals` in `kint.py`. -/
def knl_4_5 : KnlInt :=
  ⟨4, 5,
   ⟨[⟨510300, -7, 1, [1]⟩, ⟨64, 1, 5, [1]⟩, ⟨-470610, -5, 1, [1, 1]⟩, ⟨-3990, -1, 3, [1, 1]⟩, ⟨420, -3, 1, [63, 326, 63]⟩]⟩,
   ⟨[⟨255150, -7, 0, [1, 1]⟩, ⟨30, 1, 4, [1, 1]⟩, ⟨-420, -1, 2, [2, 15, 2]⟩, ⟨210, -3, 0, [9, 443, 443, 9]⟩, ⟨-5670, -5, 0, [19, 128, 19]⟩]⟩,
   ⟨[⟨1020600, -6, 1, [1, 1]⟩, ⟨2, 2, 5, [1, 1]⟩, ⟨210, -2, 1, [9, 215, 215, 9]⟩, ⟨-5670, -4, 1, [31, 122, 31]⟩, ⟨-2, 0, 3, [105, 692, 105]⟩]⟩,
   ⟨[⟨4, 2, 6, [1]⟩, ⟨-900, 0, 4, [1, 1]⟩, ⟨255150, -6, 0, [1, 6, 1]⟩, ⟨-22680, -4, 0, [1, 22, 22, 1]⟩, ⟨420, -2, 2, [37, 150, 37]⟩]⟩⟩

/-- Table entry for `(n, l) = (4, 6)` of `integrals` in `kint.py`. -/
def knl_4_6 : KnlInt :=
  ⟨4, 6,
   ⟨[⟨48024900, -9, 1, [1]⟩, ⟨-45218250, -7, 1, [1, 1]⟩, ⟨-42, 1, 5, [1, 1]⟩, ⟨2520, -1, 3, [1, 7, 1]⟩, ⟨-630, -3, 1, [33, 995, 995, 33]⟩, ⟨1890, -5, 1, [1749, 7712, 1749]⟩]⟩,
   ⟨[⟨-88, 1, 6, [1]⟩, ⟨24012450, -9, 0, [1, 1]⟩, ⟨11340, -1, 4, [1, 1]⟩, ⟨-623700, -7, 0, [17, 111, 17]⟩, ⟨-1260, -3, 2, [159, 710, 159]⟩, ⟨1890, -5, 0, [187, 5418, 5418, 187]⟩]⟩,
   ⟨[⟨-4, 2, 7, [1]⟩, ⟨96049800, -8, 1, [1, 1]⟩, ⟨1764, 0, 5, [1, 1]⟩, ⟨-6300, -2, 3, [11, 42, 11]⟩, ⟨7560, -4, 1, [55, 754, 754, 55]⟩, ⟨-103950, -6, 1, [177, 662, 177]⟩]⟩,
   ⟨[⟨-2, 2, 6, [1, 1]⟩, ⟨24012450, -8, 0, [1, 6, 1]⟩, ⟨-3150, -2, 2, [3, 61, 61, 3]⟩, ⟨-103950, -6, 0, [25, 483, 483, 25]⟩, ⟨4, 0, 4, [105, 673, 105]⟩, ⟨1890, -4, 0, [11, 1205, 4040, 1205, 11]⟩]⟩⟩

/-- Table entry for `(n, l) = (4, 7)` of `integrals` in `kint.py`. -/
def knl_4_7 : KnlInt :=
  ⟨4, 7,
   ⟨[⟨6640533900, -11, 1, [1]⟩, ⟨116, 1, 7, [1]⟩, ⟨-6328372050, -9, 1, [1, 1]⟩, ⟨-27468, -1, 5, [1, 1]⟩, ⟨3118500, -7, 1, [169, 692, 169]⟩, ⟨-20790, -5, 1, [325, 5446, 5446, 325]⟩, ⟨2520, -3, 3, [407, 1675, 407]⟩]⟩,
   ⟨[⟨3320266950, -11, 0, [1, 1]⟩, ⟨56, 1, 6, [1, 1]⟩, ⟨-252, -1, 4, [25, 168, 25]⟩, ⟨-28378350, -9, 0, [53, 340, 53]⟩, ⟨1260, -3, 2, [99, 2390, 2390, 99]⟩, ⟨623700, -7, 0, [104, 2471, 2471, 104]⟩, ⟨-20790, -5, 0, [13, 2032, 7452, 2032, 13]⟩]⟩,
   ⟨[⟨13281067800, -10, 1, [1, 1]⟩, ⟨2, 2, 7, [1, 1]⟩, ⟨3150, -2, 3, [11, 205, 205, 11]⟩, ⟨-12, 0, 5, [63, 397, 63]⟩, ⟨-28378350, -8, 1, [95, 346, 95]⟩, ⟨20790, -6, 1, [4017, 44359, 44359, 4017]⟩, ⟨-20790, -4, 1, [13, 831, 2560, 831, 13]⟩]⟩,
   ⟨[⟨4, 2, 8, [1]⟩, ⟨-3136, 0, 6, [1, 1]⟩, ⟨3320266950, -10, 0, [1, 6, 1]⟩, ⟨-56756700, -8, 0, [7, 127, 127, 7]⟩, ⟨12600, -2, 4, [19, 70, 19]⟩, ⟨-83160, -4, 2, [44, 487, 487, 44]⟩, ⟨20790, -6, 0, [299, 18932, 58290, 18932, 299]⟩]⟩⟩

/-- Table entry for `(n, l) = (4, 8)` of `integrals` in `kint.py`. -/
def knl_4_8 : KnlInt :=
  ⟨4, 8,
   ⟨[⟨1264255492500, -13, 1, [1]⟩, ⟨-1214451488250, -11, 1, [1, 1]⟩, ⟨-72, 1, 7, [1, 1]⟩, ⟨1260, -1, 5, [11, 72, 11]⟩, ⟨-13860, -3, 3, [39, 830, 830, 39]⟩, ⟨-40540500, -7, 1, [48, 625, 625, 48]⟩, ⟨28378350, -9, 1, [3855, 15124, 3855]⟩, ⟨20790, -5, 1, [195, 16224, 53692, 16224, 195]⟩]⟩,
   ⟨[⟨-148, 1, 8, [1]⟩, ⟨632127746250, -13, 0, [1, 1]⟩, ⟨59220, -1, 6, [1, 1]⟩, ⟨-7662154500, -11, 0, [38, 241, 38]⟩, ⟨-27720, -3, 4, [147, 575, 147]⟩, ⟨28378350, -9, 0, [510, 10907, 10907, 510]⟩, ⟨20790, -5, 2, [3107, 40158, 40158, 3107]⟩, ⟨-8108100, -7, 0, [15, 1259, 4182, 1259, 15]⟩]⟩,
   ⟨[⟨-4, 2, 9, [1]⟩, ⟨2528510985000, -12, 1, [1, 1]⟩, ⟨5184, 0, 7, [1, 1]⟩, ⟨-138600, -2, 5, [5, 18, 5]⟩, ⟨-1351350, -6, 1, [99, 3396, 9410, 3396, 99]⟩, ⟨-3831077250, -10, 1, [139, 498, 139]⟩, ⟨83160, -4, 3, [260, 2549, 2549, 260]⟩, ⟨56756700, -8, 1, [345, 3409, 3409, 345]⟩]⟩,
   ⟨[⟨-2, 2, 8, [1, 1]⟩, ⟨632127746250, -12, 0, [1, 6, 1]⟩, ⟨-34650, -2, 4, [3, 53, 53, 3]⟩, ⟨-3831077250, -10, 0, [21, 367, 367, 21]⟩, ⟨4, 0, 6, [315, 1963, 315]⟩, ⟨-1351350, -6, 0, [3, 862, 7335, 7335, 862, 3]⟩, ⟨28378350, -8, 0, [60, 3017, 8862, 3017, 60]⟩, ⟨20790, -4, 2, [91, 4525, 13240, 4525, 91]⟩]⟩⟩

/-- Table entry for `(n, l) = (4, 9)` of `integrals` in `kint.py`. -/
def knl_4_9 : KnlInt :=
  ⟨4, 9,
   ⟨[⟨316653859021500, -15, 1, [1]⟩, ⟨184, 1, 9, [1]⟩, ⟨-305907687335250, -13, 1, [1, 1]⟩, ⟨-116820, -1, 7, [1, 1]⟩, ⟨13860, -3, 5, [975, 3686, 975]⟩, ⟨-270270, -5, 3, [1555, 17262, 17262, 1555]⟩, ⟨2554051500, -11, 1, [11373, 43390, 11373]⟩, ⟨-28378350, -9, 1, [21998, 249171, 249171, 21998]⟩, ⟨40540500, -7, 1, [68, 2903, 8565, 2903, 68]⟩]⟩,
   ⟨[⟨158326929510750, -15, 0, [1, 1]⟩, ⟨90, 1, 8, [1, 1]⟩, ⟨-3960, -1, 6, [7, 45, 7]⟩, ⟨-716411445750, -13, 0, [103, 648, 103]⟩, ⟨6930, -3, 4, [273, 5363, 5363, 273]⟩, ⟨1277025750, -11, 0, [3145, 62991, 62991, 3145]⟩, ⟨4054050, -7, 0, [17, 6765, 65753, 65753, 6765, 17]⟩, ⟨-270270, -5, 2, [120, 7329, 22736, 7329, 120]⟩, ⟨-56756700, -9, 0, [833, 52514, 164475, 52514, 833]⟩]⟩,
   ⟨[⟨633307718043000, -14, 1, [1, 1]⟩, ⟨2, 2, 9, [1, 1]⟩, ⟨6930, -2, 5, [39, 665, 665, 39]⟩, ⟨-4, 0, 7, [495, 3061, 495]⟩, ⟨-238803815250, -12, 1, [573, 2030, 573]⟩, ⟨255405150, -10, 1, [21947, 202709, 202709, 21947]⟩, ⟨-1891890, -4, 3, [5, 215, 608, 215, 5]⟩, ⟨1351350, -6, 1, [51, 7586, 55503, 55503, 7586, 51]⟩, ⟨-4054050, -8, 1, [13600, 350695, 913962, 350695, 13600]⟩]⟩,
   ⟨[⟨4, 2, 10, [1]⟩, ⟨-8100, 0, 8, [1, 1]⟩, ⟨158326929510750, -14, 0, [1, 6, 1]⟩, ⟨-7567560, -4, 4, [13, 118, 118, 13]⟩, ⟨-955215261000, -12, 0, [22, 375, 375, 22]⟩, ⟨13860, -2, 6, [127, 450, 127]⟩, ⟨-8108100, -8, 0, [323, 48975, 361340, 361340, 48975, 323]⟩, ⟨510810300, -10, 0, [1037, 45881, 130820, 45881, 1037]⟩, ⟨1351350, -6, 2, [1062, 27015, 70126, 27015, 1062]⟩]⟩⟩

/-- Table entry for `(n, l) = (4, 10)` of `integrals` in `kint.py`. -/
def knl_4_10 : KnlInt :=
  ⟨4, 10,
   ⟨[⟨100863567447142500, -17, 1, [1]⟩, ⟨-97855355786438250, -15, 1, [1, 1]⟩, ⟨-110, 1, 9, [1, 1]⟩, ⟨1980, -1, 7, [26, 165, 26]⟩, ⟨-12870, -3, 5, [441, 8203, 8203, 441]⟩, ⟨-21709437750, -11, 1, [10811, 112109, 112109, 10811]⟩, ⟨716411445750, -13, 1, [13471, 50392, 13471]⟩, ⟨-4054050, -7, 1, [323, 62135, 507299, 507299, 62135, 323]⟩, ⟨270270, -5, 3, [680, 34517, 102480, 34517, 680]⟩, ⟨16216200, -9, 1, [93347, 2888861, 7948878, 2888861, 93347]⟩]⟩,
   ⟨[⟨-224, 1, 10, [1]⟩, ⟨50431783723571250, -17, 0, [1, 1]⟩, ⟨214830, -1, 8, [1, 1]⟩, ⟨-353907254200500, -15, 0, [67, 419, 67]⟩, ⟨-25740, -3, 6, [1519, 5606, 1519]⟩, ⟨716411445750, -13, 0, [1919, 36748, 36748, 1919]⟩, ⟨270270, -5, 4, [7820, 78617, 78617, 7820]⟩, ⟨-43418875500, -11, 0, [456, 24339, 73330, 24339, 456]⟩, ⟨-8108100, -7, 2, [3910, 118660, 324617, 118660, 3910]⟩, ⟨4054050, -9, 0, [15181, 3001979, 24809428, 24809428, 3001979, 15181]⟩]⟩,
   ⟨[⟨-4, 2, 11, [1]⟩, ⟨201727134894285000, -16, 1, [1, 1]⟩, ⟨12100, 0, 9, [1, 1]⟩, ⟨7567560, -4, 5, [49, 422, 422, 49]⟩, ⟨-25740, -2, 7, [157, 550, 157]⟩, ⟨-176953627100250, -14, 1, [251, 882, 251]⟩, ⟨955215261000, -12, 1, [2052, 18113, 18113, 2052]⟩, ⟨-1351350, -6, 3, [7718, 164231, 408030, 164231, 7718]⟩, ⟨8108100, -8, 1, [8075, 602055, 3737318, 3737318, 602055, 8075]⟩, ⟨-1240539300, -10, 1, [19323, 423039, 1059772, 423039, 19323]⟩]⟩,
   ⟨[⟨-2, 2, 10, [1, 1]⟩, ⟨50431783723571250, -16, 0, [1, 6, 1]⟩, ⟨-176953627100250, -14, 0, [39, 653, 653, 39]⟩, ⟨-12870, -2, 6, [49, 815, 815, 49]⟩, ⟨6, 0, 8, [495, 3044, 495]⟩, ⟨1891890, -4, 4, [20, 783, 2162, 783, 20]⟩, ⟨-1351350, -6, 2, [459, 49179, 326326, 326326, 49179, 459]⟩, ⟨238803815250, -12, 0, [817, 33313, 93060, 33313, 817]⟩, ⟨-620269650, -10, 0, [2242, 250543, 1691711, 1691711, 250543, 2242]⟩, ⟨4054050, -8, 0, [323, 208318, 3842665, 9287180, 3842665, 208318, 323]⟩]⟩⟩

/-- Table entry for `(n, l) = (6, 0)` of `integrals` in `kint.py`. -/
def knl_6_0 : KnlInt :=
  ⟨6, 0,
   ⟨[⟨-16, 3, 1, [1]⟩]⟩,
   ⟨[⟨48, 1, 0, [1]⟩, ⟨-8, 3, 0, [1, 1]⟩]⟩,
   ⟨[⟨48, 2, 1, [1]⟩, ⟨-8, 4, 1, [1, 1]⟩]⟩,
   ⟨[⟨-48, 0, 0, [1]⟩, ⟨24, 2, 0, [1, 1]⟩, ⟨-2, 4, 0, [1, 6, 1]⟩]⟩⟩

/-- Table entry for `(n, l) = (6, 1)` of `integrals` in `kint.py`. -/
def knl_6_1 : KnlInt :=
  ⟨6, 1,
   ⟨[⟨-80, 1, 1, [1]⟩, ⟨16, 3, 1, [1, 1]⟩]⟩,
   ⟨[⟨-16, 1, 0, [1, 1]⟩, ⟨2, 3, 0, [1, 14, 1]⟩]⟩,
   ⟨[⟨80, 0, 1, [1]⟩, ⟨-56, 2, 1, [1, 1]⟩, ⟨2, 4, 1, [1, 6, 1]⟩]⟩,
   ⟨[⟨16, 0, 0, [1, 1]⟩, ⟨8, 4, 2, [1, 1]⟩, ⟨-8, 2, 0, [1, 12, 1]⟩]⟩⟩

/-- Table entry for `(n, l) = (6, 2)` of `integrals` in `kint.py`. -/
def knl_6_2 : KnlInt :=
  ⟨6, 2,
   ⟨[⟨168, 1, 1, [1, 1]⟩, ⟨-2, 3, 1, [3, 26, 3]⟩]⟩,
   ⟨[⟨-32, 3, 2, [1, 1]⟩, ⟨6, 1, 0, [5, 54, 5]⟩]⟩,
   ⟨[⟨-240, 0, 1, [1, 1]⟩, ⟨-8, 4, 3, [1, 1]⟩, ⟨12, 2, 1, [5, 26, 5]⟩]⟩,
   ⟨[⟨-2, 4, 2, [1, 6, 1]⟩, ⟨-48, 0, 0, [1, 9, 1]⟩, ⟨6, 2, 0, [1, 35, 35, 1]⟩]⟩⟩

/-- Table entry for `(n, l) = (6, 3)` of `integrals` in `kint.py`. -/
def knl_6_3 : KnlInt :=
  ⟨6, 3,
   ⟨[⟨1800, -1, 1, [1, 1]⟩, ⟨56, 3, 3, [1, 1]⟩, ⟨-30, 1, 1, [11, 58, 11]⟩]⟩,
   ⟨[⟨450, -1, 0, [1, 6, 1]⟩, ⟨4, 3, 2, [3, 22, 3]⟩, ⟨-6, 1, 0, [5, 191, 191, 5]⟩]⟩,
   ⟨[⟨2, 4, 3, [1, 6, 1]⟩, ⟨-6, 2, 1, [5, 111, 111, 5]⟩, ⟨60, 0, 1, [25, 98, 25]⟩]⟩,
   ⟨[⟨8, 4, 4, [1, 1]⟩, ⟨-12, 2, 2, [19, 78, 19]⟩, ⟨6, 0, 0, [35, 701, 701, 35]⟩]⟩⟩

/-- Table entry for `(n, l) = (6, 4)` of `integrals` in `kint.py`. -/
def knl_6_4 : KnlInt :=
  ⟨6, 4,
   ⟨[⟨29400, -3, 1, [1, 1]⟩, ⟨70, 1, 1, [3, 73, 73, 3]⟩, ⟨-4, 3, 3, [5, 34, 5]⟩, ⟨-1050, -1, 1, [15, 58, 15]⟩]⟩,
   ⟨[⟨-88, 3, 4, [1, 1]⟩, ⟨7350, -3, 0, [1, 6, 1]⟩, ⟨-2100, -1, 0, [1, 21, 21, 1]⟩, ⟨2, 1, 2, [855, 3634, 855]⟩]⟩,
   ⟨[⟨-8, 4, 5, [1, 1]⟩, ⟨14700, -2, 1, [3, 10, 3]⟩, ⟨-50, 0, 1, [63, 737, 737, 63]⟩, ⟨4, 2, 3, [155, 582, 155]⟩]⟩,
   ⟨[⟨-2, 4, 4, [1, 6, 1]⟩, ⟨7350, -2, 0, [1, 15, 15, 1]⟩, ⟨2, 2, 2, [45, 847, 847, 45]⟩, ⟨-2, 0, 0, [105, 7710, 24394, 7710, 105]⟩]⟩⟩

/-- Table entry for `(n, l) = (6, 5)` of `integrals` in `kint.py`. -/
def knl_6_5 : KnlInt :=
  ⟨6, 5,
   ⟨[⟨1428840, -5, 1, [1, 1]⟩, ⟨128, 3, 5, [1, 1]⟩, ⟨1260, -1, 1, [27, 349, 349, 27]⟩, ⟨-13230, -3, 1, [71, 250, 71]⟩, ⟨-6, 1, 3, [1015, 3938, 1015]⟩]⟩,
   ⟨[⟨357210, -5, 0, [1, 6, 1]⟩, ⟨-120, 1, 2, [7, 142, 142, 7]⟩, ⟨-13230, -3, 0, [11, 185, 185, 11]⟩, ⟨2, 3, 4, [15, 98, 15]⟩, ⟨630, -1, 0, [3, 284, 930, 284, 3]⟩]⟩,
   ⟨[⟨714420, -4, 1, [3, 10, 3]⟩, ⟨2, 4, 5, [1, 6, 1]⟩, ⟨-42, 2, 3, [5, 87, 87, 5]⟩, ⟨-13230, -2, 1, [21, 187, 187, 21]⟩, ⟨6, 0, 1, [315, 14980, 43418, 14980, 315]⟩]⟩,
   ⟨[⟨8, 4, 6, [1, 1]⟩, ⟨357210, -4, 0, [1, 15, 15, 1]⟩, ⟨-276, 2, 4, [5, 18, 5]⟩, ⟨3000, 0, 2, [7, 67, 67, 7]⟩, ⟨-26460, -2, 0, [1, 43, 120, 43, 1]⟩]⟩⟩

/-- Table entry for `(n, l) = (6, 6)` of `integrals` in `kint.py`. -/
def knl_6_6 : KnlInt :=
  ⟨6, 6,
   ⟨[⟨123492600, -7, 1, [1, 1]⟩, ⟨168, 1, 3, [15, 277, 277, 15]⟩, ⟨-2, 3, 5, [21, 134, 21]⟩, ⟨-561330, -5, 1, [151, 522, 151]⟩, ⟨1890, -3, 1, [2519, 25109, 25109, 2519]⟩, ⟨-1890, -1, 1, [11, 628, 1890, 628, 11]⟩]⟩,
   ⟨[⟨-176, 3, 6, [1, 1]⟩, ⟨30873150, -7, 0, [1, 6, 1]⟩, ⟨-2245320, -5, 0, [6, 97, 97, 6]⟩, ⟨-11340, -1, 2, [23, 241, 241, 23]⟩, ⟨60, 1, 4, [287, 1062, 287]⟩, ⟨1890, -3, 0, [209, 11109, 32620, 11109, 209]⟩]⟩,
   ⟨[⟨-8, 4, 7, [1, 1]⟩, ⟨61746300, -6, 1, [3, 10, 3]⟩, ⟨48, 2, 5, [56, 197, 56]⟩, ⟨-187110, -4, 1, [157, 1267, 1267, 157]⟩, ⟨-168, 0, 3, [555, 4807, 4807, 555]⟩, ⟨3780, -2, 1, [132, 3341, 8526, 3341, 132]⟩]⟩,
   ⟨[⟨-2, 4, 6, [1, 6, 1]⟩, ⟨30873150, -6, 0, [1, 15, 15, 1]⟩, ⟨12, 2, 4, [35, 583, 583, 35]⟩, ⟨1890, -2, 0, [11, 1902, 13559, 13559, 1902, 11]⟩, ⟨-187110, -4, 0, [17, 602, 1610, 602, 17]⟩, ⟨-30, 0, 2, [315, 12460, 34506, 12460, 315]⟩]⟩⟩

/-- Table entry for `(n, l) = (6, 7)` of `integrals` in `kint.py`. -/
def knl_6_7 : KnlInt :=
  ⟨6, 7,
   ⟨[⟨16232416200, -9, 1, [1, 1]⟩, ⟨232, 3, 7, [1, 1]⟩, ⟨-44594550, -7, 1, [255, 874, 255]⟩, ⟨1260, -1, 3, [1067, 9969, 9969, 1067]⟩, ⟨166320, -5, 1, [4667, 41660, 41660, 4667]⟩, ⟨-4, 1, 5, [10395, 37406, 10395]⟩, ⟨-6930, -3, 1, [1131, 33919, 90468, 33919, 1131]⟩]⟩,
   ⟨[⟨4058104050, -9, 0, [1, 6, 1]⟩, ⟨8, 3, 6, [7, 44, 7]⟩, ⟨-44594550, -7, 0, [41, 651, 651, 41]⟩, ⟨-28, 1, 4, [225, 3931, 3931, 225]⟩, ⟨-6930, -3, 0, [39, 9069, 71176, 71176, 9069, 39]⟩, ⟨1260, -1, 2, [99, 4497, 12880, 4497, 99]⟩, ⟨41580, -5, 0, [1807, 76435, 214132, 76435, 1807]⟩]⟩,
   ⟨[⟨8116208100, -8, 1, [3, 10, 3]⟩, ⟨2, 4, 7, [1, 6, 1]⟩, ⟨-4, 2, 5, [189, 3065, 3065, 189]⟩, ⟨-14864850, -6, 1, [283, 2197, 2197, 283]⟩, ⟨-6930, -2, 1, [39, 3946, 24927, 24927, 3946, 39]⟩, ⟨20790, -4, 1, [5239, 101496, 243810, 101496, 5239]⟩, ⟨2, 0, 3, [17325, 620424, 1672366, 620424, 17325]⟩]⟩,
   ⟨[⟨8, 4, 8, [1, 1]⟩, ⟨4058104050, -8, 0, [1, 15, 15, 1]⟩, ⟨-8, 2, 6, [595, 2064, 595]⟩, ⟨140, 0, 4, [2295, 18761, 18761, 2295]⟩, ⟨-29729700, -6, 0, [16, 529, 1390, 529, 16]⟩, ⟨-13860, -2, 2, [321, 6393, 15484, 6393, 321]⟩, ⟨20790, -4, 0, [325, 31671, 196644, 196644, 31671, 325]⟩]⟩⟩

/-- Table entry for `(n, l) = (6, 8)` of `integrals` in `kint.py`. -/
def knl_6_8 : KnlInt :=
  ⟨6, 8,
   ⟨[⟨2988240255000, -11, 1, [1, 1]⟩, ⟨-8, 3, 7, [9, 56, 9]⟩, ⟨-5533778250, -9, 1, [383, 1306, 383]⟩, ⟨36, 1, 5, [385, 6491, 6491, 385]⟩, ⟨12162150, -7, 1, [13215, 111469, 111469, 13215]⟩, ⟨-41580, -1, 3, [13, 519, 1440, 519, 13]⟩, ⟨62370, -3, 1, [65, 8203, 56168, 56168, 8203, 65]⟩, ⟨-1621620, -5, 1, [1495, 33659, 84308, 33659, 1495]⟩]⟩,
   ⟨[⟨-296, 3, 8, [1, 1]⟩, ⟨747060063750, -11, 0, [1, 6, 1]⟩, ⟨-11067556500, -9, 0, [31, 487, 487, 31]⟩, ⟨-41580, -1, 4, [129, 1123, 1123, 129]⟩, ⟨60, 1, 6, [1491, 5270, 1491]⟩, ⟨-6486480, -5, 0, [20, 2479, 16828, 16828, 2479, 20]⟩, ⟨12162150, -7, 0, [1370, 52121, 142386, 52121, 1370]⟩, ⟨20790, -3, 2, [3679, 83999, 211260, 83999, 3679]⟩]⟩,
   ⟨[⟨-8, 4, 9, [1, 1]⟩, ⟨1494120127500, -10, 1, [3, 10, 3]⟩, ⟨-5533778250, -8, 1, [147, 1117, 1117, 147]⟩, ⟨24, 2, 7, [327, 1124, 327]⟩, ⟨-36, 0, 5, [25795, 203261, 203261, 25795]⟩, ⟨291060, -2, 3, [91, 1583, 3708, 1583, 91]⟩, ⟨-810810, -4, 1, [185, 9707, 52092, 52092, 9707, 185]⟩, ⟨8108100, -6, 1, [3230, 54919, 127750, 54919, 3230]⟩]⟩,
   ⟨[⟨-2, 4, 8, [1, 6, 1]⟩, ⟨747060063750, -10, 0, [1, 15, 15, 1]⟩, ⟨84, 2, 6, [15, 239, 239, 15]⟩, ⟨145530, -2, 2, [13, 1026, 6017, 6017, 1026, 13]⟩, ⟨-5533778250, -8, 0, [17, 542, 1410, 542, 17]⟩, ⟨4054050, -6, 0, [470, 35923, 207655, 207655, 35923, 470]⟩, ⟨-30, 0, 4, [3465, 116760, 309286, 116760, 3465]⟩, ⟨-810810, -4, 0, [5, 1937, 28227, 63630, 28227, 1937, 5]⟩]⟩⟩

/-- Table entry for `(n, l) = (6, 9)` of `integrals` in `kint.py`. -/
def knl_6_9 : KnlInt :=
  ⟨6, 9,
   ⟨[⟨730739674665000, -13, 1, [1, 1]⟩, ⟨368, 3, 9, [1, 1]⟩, ⟨41580, -1, 5, [429, 3563, 3563, 429]⟩, ⟨-976924698750, -11, 1, [535, 1818, 535]⟩, ⟨-12, 1, 7, [14685, 51274, 14685]⟩, ⟨851350500, -9, 1, [49759, 405409, 405409, 49759]⟩, ⟨3243240, -5, 1, [935, 59405, 344101, 344101, 59405, 935]⟩, ⟨-270270, -3, 3, [1865, 36289, 87780, 36289, 1865]⟩, ⟨-60810750, -7, 1, [13158, 254303, 613806, 254303, 13158]⟩]⟩,
   ⟨[⟨182684918666250, -13, 0, [1, 6, 1]⟩, ⟨-2520, 1, 6, [11, 181, 181, 11]⟩, ⟨2, 3, 8, [45, 278, 45]⟩, ⟨-976924698750, -11, 0, [87, 1357, 1357, 87]⟩, ⟨-810810, -3, 2, [40, 3753, 23555, 23555, 3753, 40]⟩, ⟨20790, -1, 4, [91, 3348, 9090, 3348, 91]⟩, ⟨-121621500, -7, 0, [425, 39561, 247196, 247196, 39561, 425]⟩, ⟨425675250, -9, 0, [10727, 383712, 1031794, 383712, 10727]⟩, ⟨810810, -5, 0, [85, 43930, 725636, 1696226, 725636, 43930, 85]⟩]⟩,
   ⟨[⟨365369837332500, -12, 1, [3, 10, 3]⟩, ⟨2, 4, 9, [1, 6, 1]⟩, ⟨-12, 2, 7, [165, 2597, 2597, 165]⟩, ⟨-325641566250, -10, 1, [631, 4729, 4729, 631]⟩, ⟨-1891890, -2, 3, [5, 342, 1909, 1909, 342, 5]⟩, ⟨-20270250, -6, 1, [3230, 125051, 611383, 611383, 125051, 3230]⟩, ⟨425675250, -8, 1, [17697, 279340, 637158, 279340, 17697]⟩, ⟨6, 0, 5, [45045, 1457940, 3816038, 1457940, 45045]⟩, ⟨810810, -4, 1, [85, 17395, 214701, 464310, 214701, 17395, 85]⟩]⟩,
   ⟨[⟨8, 4, 10, [1, 1]⟩, ⟨182684918666250, -12, 0, [1, 15, 15, 1]⟩, ⟨-48, 2, 8, [255, 871, 255]⟩, ⟨1800, 0, 6, [1309, 10061, 10061, 1309]⟩, ⟨-3783780, -2, 4, [32, 511, 1170, 511, 32]⟩, ⟨-651283132500, -10, 0, [37, 1153, 2980, 1153, 37]⟩, ⟨851350500, -8, 0, [697, 46965, 260146, 260146, 46965, 697]⟩, ⟨810810, -4, 2, [2020, 78421, 383895, 383895, 78421, 2020]⟩, ⟨-40540500, -6, 0, [68, 13886, 171043, 369670, 171043, 13886, 68]⟩]⟩⟩

/-- Table entry for `(n, l) = (6, 10)` of `integrals` in `kint.py`. -/
def knl_6_10 : KnlInt :=
  ⟨6, 10,
   ⟨[⟨228624086213523000, -15, 1, [1, 1]⟩, ⟨-2, 3, 9, [55, 338, 55]⟩, ⟨440, 1, 7, [117, 1892, 1892, 117]⟩, ⟨-231400896977250, -13, 1, [711, 2410, 711]⟩, ⟨151966064250, -11, 1, [91903, 731341, 731341, 91903]⟩, ⟨-12870, -1, 5, [441, 15348, 41030, 15348, 441]⟩, ⟨90090, -3, 3, [2040, 160491, 949025, 949025, 160491, 2040]⟩, ⟨8108100, -7, 1, [216087, 9860255, 51638802, 51638802, 9860255, 216087]⟩, ⟨-482431950, -9, 1, [630515, 11102120, 26156106, 11102120, 630515]⟩, ⟨-270270, -5, 1, [4845, 1243210, 17052484, 38054674, 17052484, 1243210, 4845]⟩]⟩,
   ⟨[⟨-448, 3, 10, [1, 1]⟩, ⟨57156021553380750, -15, 0, [1, 6, 1]⟩, ⟨-925603587909000, -13, 0, [29, 450, 450, 29]⟩, ⟨-25740, -1, 6, [2009, 16143, 16143, 2009]⟩, ⟨2, 1, 8, [161865, 560254, 161865]⟩, ⟨-964863900, -9, 0, [22534, 1787775, 10595035, 10595035, 1787775, 22534]⟩, ⟨90090, -3, 4, [28380, 497591, 1171170, 497591, 28380]⟩, ⟨-1081080, -5, 2, [32895, 1493435, 7805639, 7805639, 1493435, 32895]⟩, ⟨21709437750, -11, 0, [71117, 2442851, 6497480, 2442851, 71117]⟩, ⟨4054050, -7, 0, [15827, 4095912, 56365545, 125906008, 56365545, 4095912, 15827]⟩]⟩,
   ⟨[⟨-8, 4, 11, [1, 1]⟩, ⟨114312043106761500, -14, 1, [3, 10, 3]⟩, ⟨-77133632325750, -12, 1, [853, 6331, 6331, 853]⟩, ⟨-2200, 0, 7, [2457, 18553, 18553, 2457]⟩, ⟨4, 2, 9, [4565, 15522, 4565]⟩, ⟨1261260, -2, 5, [363, 5469, 12320, 5469, 363]⟩, ⟨-270270, -4, 3, [44540, 1445229, 6646695, 6646695, 1445229, 44540]⟩, ⟨-137837700, -8, 1, [211983, 6922955, 31917318, 31917318, 6922955, 211983]⟩, ⟨8683775100, -10, 1, [302860, 4556895, 10257402, 4556895, 302860]⟩, ⟨2702700, -6, 1, [26163, 2653768, 26982649, 55545304, 26982649, 2653768, 26163]⟩]⟩,
   ⟨[⟨-2, 4, 10, [1, 6, 1]⟩, ⟨57156021553380750, -14, 0, [1, 15, 15, 1]⟩, ⟨2, 2, 8, [1485, 23167, 23167, 1485]⟩, ⟨630630, -2, 4, [60, 3743, 20181, 20181, 3743, 60]⟩, ⟨-77133632325750, -12, 0, [101, 3098, 7970, 3098, 101]⟩, ⟨4341887550, -10, 0, [50027, 3121140, 16805745, 16805745, 3121140, 50027]⟩, ⟨-2, 0, 6, [315315, 9921780, 25747834, 9921780, 315315]⟩, ⟨1351350, -6, 0, [969, 769029, 21161479, 92938987, 92938987, 21161479, 769029, 969]⟩, ⟨-270270, -4, 2, [2295, 342890, 3799599, 7983360, 3799599, 342890, 2295]⟩, ⟨-68918850, -8, 0, [21698, 3276813, 36459210, 76693582, 36459210, 3276813, 21698]⟩]⟩⟩

/-- The `integrals` dictionary of `kint.py`, in insertion order. -/
def integralsList : List ((ℤ × ℤ) × KnlInt) :=
  [((4, 0), knl_4_0), ((4, 1), knl_4_1), ((4, 2), knl_4_2), ((4, 3), knl_4_3), ((4, 4), knl_4_4), ((4, 5), knl_4_5), ((4, 6), knl_4_6), ((4, 7), knl_4_7), ((4, 8), knl_4_8), ((4, 9), knl_4_9), ((4, 10), knl_4_10), ((6, 0), knl_6_0), ((6, 1), knl_6_1), ((6, 2), knl_6_2), ((6, 3), knl_6_3), ((6, 4), knl_6_4), ((6, 5), knl_6_5), ((6, 6), knl_6_6), ((6, 7), knl_6_7), ((6, 8), knl_6_8), ((6, 9), knl_6_9), ((6, 10), knl_6_10)]

/-- Dictionary lookup `integrals[(n, l)]` over an association list. -/
def lookupTab (n l : ℤ) : List ((ℤ × ℤ) × KnlInt) → Option KnlInt
  | [] => none
  | ((kn, kl), k) :: t => if n = kn ∧ l = kl then some k else lookupTab n l t

/-- Lookup in the `integrals` table. -/
def lookupIntegrals (n l : ℤ) : Option KnlInt := lookupTab n l integralsList

/-- The analytic path of the `Compare` facade of `kint.py` (and of the
`definite_integral` contract of the specification): build one evaluation
context for `(a, b)`, look up `(n, l)` in the table (`KeyError`, i.e.
`notFound`, when absent), evaluate the antiderivative at both bounds and
return `F(x_upper) - F(x_lower)`. -/
def definite_integral (env : Env) (n l : ℤ) (a b x1 x2 : ℚ) :
    Except KintError ℚ := do
  let poly := mkPolynomial a b
  let knl ← match lookupIntegrals n l with
    | some k => Except.ok k
    | none => Except.error KintError.notFound
  let result1 ← knl.evaluate env x1 poly
  let result2 ← knl.evaluate env x2 poly
  return result2 - result1



/-- Coherence of a monomial cache: every stored entry is exactly what
`_make_list` computes for its degree.  Every cache reachable in the Python
program is coherent, because `get_list` only ever stores `_make_list`'s
output. -/
def coherent (p : Polynomial) : Prop :=
  ∀ pr ∈ p.stored, p.make_list pr.1 = some pr.2

instance decCoherent (p : Polynomial) : Decidable (coherent p) :=
  inferInstanceAs (Decidable (∀ pr ∈ p.stored, p.make_list pr.1 = some pr.2))

/-- Structural sanity of a table entry: `n ≥ 3` and no term carries an
empty coefficient list.  Every entry of `integralsList` satisfies this. -/
def wellFormed (k : KnlInt) : Prop :=
  3 ≤ k.n ∧ ∀ pt ∈ [k.csum, k.cdiff, k.ssum, k.sdiff], ∀ t ∈ pt.terms, t.coeffs ≠ []

instance decWellFormed (k : KnlInt) : Decidable (wellFormed k) :=
  inferInstanceAs (Decidable (3 ≤ k.n ∧ ∀ pt ∈ [k.csum, k.cdiff, k.ssum, k.sdiff],
    ∀ t ∈ pt.terms, t.coeffs ≠ []))

/-- A computation that can only fail with `degenerateInputs`. -/
def degOnly {α : Type} (e : Except KintError α) : Prop :=
  ∀ err, e = .error err → err = KintError.degenerateInputs

/-- Formula from the spec: `weighted_sum(coeffs) = Σ coeffs[k]·m[k]` with
`m[k] = a^(2(n-1-k))·b^(2k)` and `n = len(coeffs)`. -/
def specWeightedSum (a b : ℚ) (coeffs : List ℚ) : ℚ :=
  ((List.range coeffs.length).map
    (fun k => coeffs.getD k 0 * (a ^ (2 * (coeffs.length - 1 - k)) * b ^ (2 * k)))).sum

/-- Formula from the spec: `T1 = cos((a+b)x)·(Sc+Dc)/(a+b)^(n-2)`. -/
def specT1 (env : Env) (k : KnlInt) (p : Polynomial) (x sc dc : ℚ) : ℚ :=
  env.cos (x * (p.a + p.b)) * (sc + dc) / (p.a + p.b) ^ (k.n - 2)

/-- Formula from the spec: `T2 = cos((a-b)x)·(Sc-Dc)/(a-b)^(n-2)`. -/
def specT2 (env : Env) (k : KnlInt) (p : Polynomial) (x sc dc : ℚ) : ℚ :=
  env.cos (x * (p.a - p.b)) * (sc - dc) / (p.a - p.b) ^ (k.n - 2)

/-- Formula from the spec: `T3 = sin((a+b)x)·(Ss+Ds)/(a+b)^(n-1)`. -/
def specT3 (env : Env) (k : KnlInt) (p : Polynomial) (x ss ds : ℚ) : ℚ :=
  env.sin (x * (p.a + p.b)) * (ss + ds) / (p.a + p.b) ^ (k.n - 1)

/-- Formula from the spec: `T4 = sin((a-b)x)·(Ss-Ds)/(a-b)^(n-1)`. -/
def specT4 (env : Env) (k : KnlInt) (p : Polynomial) (x ss ds : ℚ) : ℚ :=
  env.sin (x * (p.a - p.b)) * (ss - ds) / (p.a - p.b) ^ (k.n - 1)

/-- Formula from the spec: the normalization factor `0.25/(a·b)^(l+1)`. -/
def specNorm (k : KnlInt) (p : Polynomial) : ℚ :=
  (1 / 4 : ℚ) / (p.a * p.b) ^ (k.l + 1)

/-- A concrete environment for witnesses: 200 digits, trivialized
transcendental functions (the theorems hold for every environment). -/
def trivEnv : Env := ⟨200, fun _ => 1, fun _ => 1, fun _ => 0⟩

/-- A concrete environment with zero working precision, used to witness the
precision guard. -/
def lowEnv : Env := ⟨0, fun _ => 1, fun _ => 1, fun _ => 0⟩



theorem ok_bind {α β : Type} (v : α) (f : α → Except KintError β) :
    (Except.ok v >>= f) = f v := rfl

theorem error_bind {α β : Type} (e : KintError) (f : α → Except KintError β) :
    ((Except.error e : Except KintError α) >>= f) = .error e := rfl

theorem cumprodAux_replicate (c x : ℚ) (j : ℕ) :
    cumprodAux c (List.replicate j x) = (List.range j).map (fun i => c * x ^ (i + 1)) := by
  induction j generalizing c with
  | zero => rfl
  | succ j ih =>
      rw [List.replicate_succ, cumprodAux, ih (c * x), List.range_succ_eq_map,
        List.map_cons, List.map_map]
      congr 1
      · ring
      · apply List.map_congr_left
        intro i _
        simp only [Function.comp_apply, Nat.succ_eq_add_one, pow_succ]
        ring

theorem cumprod_one_replicate (x : ℚ) (j : ℕ) :
    cumprod (1 :: List.replicate j x) = (List.range (j + 1)).map (fun i => x ^ i) := by
  rw [cumprod, cumprodAux, cumprodAux_replicate, List.range_succ_eq_map,
    List.map_cons, List.map_map]
  congr 1
  · simp
  · apply List.map_congr_left
    intro i _
    simp [pow_succ, mul_comm]

/-- `_make_list` on a fresh context, in closed form. -/
theorem make_list_mk (a b : ℚ) (j : ℕ) :
    (mkPolynomial a b).make_list (j + 1) =
      some ((List.range (j + 1)).map (fun k => a ^ (2 * (j - k)) * b ^ (2 * k))) := by
  have ha : (mkPolynomial a b).a2 = a * a := rfl
  have hb : (mkPolynomial a b).b2 = b * b := rfl
  simp only [Polynomial.make_list, List.replicate_succ, setIdx0, ha, hb,
    cumprod_one_replicate, Option.bind_eq_bind, Option.some_bind]
  congr 1
  apply List.ext_getElem
  · simp
  · intro i h1 h2
    rw [List.getElem_zipWith, List.getElem_reverse]
    simp only [List.getElem_map, List.getElem_range, List.length_map, List.length_range]
    rw [← pow_two, ← pow_two, ← pow_mul, ← pow_mul]
    norm_num

theorem pure_except {α : Type} (v : α) : (pure v : Except KintError α) = .ok v := rfl

@[simp] theorem mkPolynomial_a (a b : ℚ) : (mkPolynomial a b).a = a := rfl

@[simp] theorem mkPolynomial_b (a b : ℚ) : (mkPolynomial a b).b = b := rfl

@[simp] theorem mkPolynomial_a2 (a b : ℚ) : (mkPolynomial a b).a2 = a * a := rfl

@[simp] theorem mkPolynomial_b2 (a b : ℚ) : (mkPolynomial a b).b2 = b * b := rfl

@[simp] theorem mkPolynomial_stored (a b : ℚ) : (mkPolynomial a b).stored = [] := rfl

/-- `get_list` on a fresh context, in closed form. -/
theorem get_list_mk (a b : ℚ) (j : ℕ) :
    (mkPolynomial a b).get_list (j + 1) =
      .ok ((List.range (j + 1)).map (fun k => a ^ (2 * (j - k)) * b ^ (2 * k))) := by
  rw [Polynomial.get_list]
  simp only [mkPolynomial_stored, lookupStored, make_list_mk]

/-- C4: for every context `(a, b)` and `n ≥ 1` the monomial sequence has
exactly `n` entries with `m[k] = a^(2(n-1-k))·b^(2k)`; in particular for
`n = 1` it is `[1]`. -/
theorem claim_C4_monomials (a b : ℚ) (n : ℕ) (h : 1 ≤ n) :
    ∃ L, (mkPolynomial a b).get_list n = .ok L ∧ L.length = n ∧
      (∀ k, k < n → L[k]? = some (a ^ (2 * (n - 1 - k)) * b ^ (2 * k))) ∧
      (n = 1 → L = [1]) := by
  obtain ⟨j, rfl⟩ : ∃ j, n = j + 1 := ⟨n - 1, by omega⟩
  refine ⟨_, get_list_mk a b j, by simp, ?_, ?_⟩
  · intro k hk
    rw [List.getElem?_eq_getElem (by simpa using hk)]
    simp [List.getElem_map, List.getElem_range]
  · intro h1
    obtain rfl : j = 0 := by omega
    simp [List.range_succ]

/-- Witness for C4: context `(3, 5)` at degree `3`. -/
theorem claim_C4_monomials_witness :
    1 ≤ 3 ∧ ∃ L, (mkPolynomial (3:ℚ) 5).get_list 3 = .ok L ∧ L.length = 3 ∧
      (∀ k, k < 3 → L[k]? = some ((3:ℚ) ^ (2 * (3 - 1 - k)) * 5 ^ (2 * k))) ∧
      (3 = 1 → L = [1]) :=
  ⟨by decide, claim_C4_monomials 3 5 3 (by decide)⟩

theorem zipWith_mul_sum (l₁ l₂ : List ℚ) (h : l₁.length = l₂.length) :
    (List.zipWith (· * ·) l₁ l₂).sum =
      ((List.range l₁.length).map (fun k => l₁.getD k 0 * l₂.getD k 0)).sum := by
  induction l₁ generalizing l₂ with
  | nil => simp
  | cons v t ih =>
      cases l₂ with
      | nil => simp at h
      | cons w s =>
          simp only [List.zipWith_cons_cons, List.sum_cons, List.length_cons]
          rw [ih s (by simpa using h), List.range_succ_eq_map, List.map_cons, List.map_map]
          simp [Function.comp_def, List.sum_cons]

/-- `eval_poly` on a fresh context computes the spec's weighted sum. -/
theorem eval_poly_spec (a b : ℚ) (coeffs : List ℚ) (h : coeffs ≠ []) :
    (mkPolynomial a b).eval_poly coeffs = .ok (specWeightedSum a b coeffs) := by
  obtain ⟨j, hj⟩ : ∃ j, coeffs.length = j + 1 :=
    ⟨coeffs.length - 1, by cases coeffs with | nil => exact absurd rfl h | cons v t => simp⟩
  rw [Polynomial.eval_poly]
  simp only [hj, get_list_mk, ok_bind, pure_except, specWeightedSum]
  congr 1
  rw [zipWith_mul_sum _ _ (by simp [hj])]
  simp only [hj]
  apply congrArg List.sum
  apply List.map_congr_left
  intro k hk
  have hk2 : k < j + 1 := List.mem_range.mp hk
  have hM : ((List.range (j + 1)).map
      (fun i => a ^ (2 * (j - i)) * b ^ (2 * i))).getD k 0 =
      a ^ (2 * (j - k)) * b ^ (2 * k) := by
    rw [List.getD_eq_getElem _ _ (by simpa using hk2)]
    simp [List.getElem_map, List.getElem_range]
  rw [hM]
  norm_num

/-- C8 (amended): for a nonempty coefficient list, `eval_poly` returns
`Σ coeffs[k]·m[k]`; an empty coefficient list raises an IndexError (the
claimed `0` convention fails, see the counterexample). -/
theorem claim_C8_weighted_sum (a b : ℚ) (coeffs : List ℚ) (h : coeffs ≠ []) :
    (mkPolynomial a b).eval_poly coeffs = .ok (specWeightedSum a b coeffs) :=
  eval_poly_spec a b coeffs h

/-- C8 counterexample: with an empty coefficient list `eval_poly` raises an
IndexError (numpy rejects the assignment to index 0 of a length-0 array in
`_make_list`) instead of returning `0`. -/
theorem claim_C8_cex :
    (mkPolynomial 1 1).eval_poly [] = .error .indexError ∧
      (mkPolynomial 1 1).eval_poly [] ≠ .ok 0 := by
  constructor
  · rfl
  · intro hcon
    exact Except.noConfusion hcon

/-- Witness for C8 (amended) at `(a, b) = (2, 1)`, `coeffs = [1, 1]`. -/
theorem claim_C8_witness :
    (mkPolynomial (2:ℚ) 1).eval_poly [1, 1] = .ok (specWeightedSum 2 1 [1, 1]) ∧
      specWeightedSum (2:ℚ) 1 [1, 1] = 5 :=
  ⟨claim_C8_weighted_sum 2 1 [1, 1] (by decide),
    by norm_num [specWeightedSum, List.range_succ, List.getD_cons_zero, List.getD_cons_succ]⟩

/-- C9: a term evaluates to `c · x^n · (ab)^m · weighted_sum(coeffs)`; at
`m = 0` the code takes the `(ab)^m` factor as the exact constant `1`
without computing a power, which agrees with `(ab)^0 = 1` exactly. -/
theorem mpow_nonneg {n : ℤ} (hn : 0 ≤ n) (x : ℚ) : mpow x n = .ok (x ^ n) := by
  rw [mpow, if_neg]
  intro hcon
  exact absurd hcon.2 (not_lt.mpr hn)

/-- For `m ≥ 0` the `abm` factor is `(a·b)^m`; at `m = 0` the code takes
the exact `1` without computing a power, coinciding with `(a·b)^0 = 1`. -/
theorem abmCalc_eq (t : Term) (hm : 0 ≤ t.m) (p : Polynomial) :
    t.abmCalc p = .ok ((p.a * p.b) ^ t.m) := by
  rw [Term.abmCalc]
  split
  · next h => rw [h, zpow_zero]
  · exact mpow_nonneg hm _

theorem claim_C9_term_eval (t : Term) (a b x : ℚ) (hx : 0 < x) (hm : 0 ≤ t.m)
    (hc : t.coeffs ≠ []) :
    t.evaluate x (mkPolynomial a b) =
      .ok (t.c * x ^ t.n * (a * b) ^ t.m * specWeightedSum a b t.coeffs) := by
  rw [Term.evaluate]
  have hxpow : mpow x t.n = .ok (x ^ t.n) := by
    rw [mpow, if_neg]
    intro hcon
    exact hx.ne' hcon.1
  simp only [hxpow, ok_bind, abmCalc_eq t hm, eval_poly_spec a b t.coeffs hc,
    pure_except, mkPolynomial_a, mkPolynomial_b]

/-- Witness for C9: the table term `Term(-2, 2, 0, [1, 1])` at `x = 2`,
`(a, b) = (2, 1)`. -/
theorem claim_C9_witness :
    (0:ℚ) < 2 ∧ (Term.mk (-2) 2 0 [1, 1]).evaluate 2 (mkPolynomial 2 1) =
      .ok ((-2 : ℚ) * 2 ^ (2:ℤ) * ((2:ℚ) * 1) ^ (0:ℤ) * specWeightedSum 2 1 [1, 1]) :=
  ⟨by norm_num, claim_C9_term_eval (Term.mk (-2) 2 0 [1, 1]) 2 1 2 (by norm_num)
    (by decide) (by decide)⟩

theorem lookupStored_mem {n : ℕ} {L : List ℚ} {s : List (ℕ × List ℚ)}
    (h : lookupStored n s = some L) : (n, L) ∈ s := by
  induction s with
  | nil => simp [lookupStored] at h
  | cons pr t ih =>
      obtain ⟨m, M⟩ := pr
      rw [lookupStored] at h
      split at h
      · next heq =>
          obtain rfl : M = L := Option.some.inj h
          subst heq
          exact List.mem_cons_self _ _
      · exact List.mem_cons_of_mem _ (ih h)

/-- On a coherent cache, `get_list` reads exactly what `_make_list` would
compute: the cache never changes any value. -/
theorem get_list_coh {p : Polynomial} (h : coherent p) (n : ℕ) :
    p.get_list n = match p.make_list n with
      | some L => .ok L
      | none => .error .indexError := by
  rw [Polynomial.get_list]
  cases hl : lookupStored n p.stored with
  | none => rfl
  | some L =>
      have hm : p.make_list n = some L := h (n, L) (lookupStored_mem hl)
      rw [hm]

theorem make_list_congr {p q : Polynomial} (ha : p.a2 = q.a2) (hb : p.b2 = q.b2)
    (n : ℕ) : p.make_list n = q.make_list n := by
  rw [Polynomial.make_list, Polynomial.make_list, ha, hb]

theorem get_list_congr {p q : Polynomial} (ha : p.a2 = q.a2) (hb : p.b2 = q.b2)
    (hp : coherent p) (hq : coherent q) (n : ℕ) : p.get_list n = q.get_list n := by
  rw [get_list_coh hp, get_list_coh hq, make_list_congr ha hb]

theorem eval_poly_congr {p q : Polynomial} (ha : p.a2 = q.a2) (hb : p.b2 = q.b2)
    (hp : coherent p) (hq : coherent q) (coeffs : List ℚ) :
    p.eval_poly coeffs = q.eval_poly coeffs := by
  rw [Polynomial.eval_poly, Polynomial.eval_poly, get_list_congr ha hb hp hq]

theorem abmCalc_congr {p q : Polynomial} (ha : p.a = q.a) (hb : p.b = q.b)
    (t : Term) : t.abmCalc p = t.abmCalc q := by
  rw [Term.abmCalc, Term.abmCalc, ha, hb]

theorem term_evaluate_congr {p q : Polynomial} (ha : p.a = q.a) (hb : p.b = q.b)
    (ha2 : p.a2 = q.a2) (hb2 : p.b2 = q.b2) (hp : coherent p) (hq : coherent q)
    (t : Term) (x : ℚ) : t.evaluate x p = t.evaluate x q := by
  simp only [Term.evaluate, abmCalc_congr ha hb, eval_poly_congr ha2 hb2 hp hq]

theorem sumTerms_congr {p q : Polynomial} (ha : p.a = q.a) (hb : p.b = q.b)
    (ha2 : p.a2 = q.a2) (hb2 : p.b2 = q.b2) (hp : coherent p) (hq : coherent q)
    (x : ℚ) (ts : List Term) (acc : ℚ) : sumTerms x p acc ts = sumTerms x q acc ts := by
  induction ts generalizing acc with
  | nil => rfl
  | cons t ts ih =>
      rw [sumTerms, sumTerms, term_evaluate_congr ha hb ha2 hb2 hp hq t x]
      cases hv : t.evaluate x q with
      | error e => rfl
      | ok v =>
          simp only [ok_bind]
          exact ih (acc + v)

theorem part_evaluate_congr {p q : Polynomial} (ha : p.a = q.a) (hb : p.b = q.b)
    (ha2 : p.a2 = q.a2) (hb2 : p.b2 = q.b2) (hp : coherent p) (hq : coherent q)
    (pt : Part) (x : ℚ) : pt.evaluate x p = pt.evaluate x q :=
  sumTerms_congr ha hb ha2 hb2 hp hq x pt.terms 0

theorem knl_evaluate_congr (env : Env) (k : KnlInt) (x : ℚ) {p q : Polynomial}
    (ha : p.a = q.a) (hb : p.b = q.b) (ha2 : p.a2 = q.a2) (hb2 : p.b2 = q.b2)
    (hp : coherent p) (hq : coherent q) :
    k.evaluate env x p = k.evaluate env x q := by
  simp only [KnlInt.evaluate, part_evaluate_congr ha hb ha2 hb2 hp hq, ha, hb]

/-- The degree-2 monomial list of the `(2, 1)` context, concretely. -/
theorem make_list_21_2 : (mkPolynomial (2:ℚ) 1).make_list 2 = some [4, 1] := by
  have h := make_list_mk (2:ℚ) 1 1
  norm_num [List.range_succ] at h
  exact h

/-- C10: evaluation of an integral expression is a pure function of the
inputs; in particular its value does not depend on the monomial cache's
prior contents (any two coherent caches — the only caches the program can
ever build — give identical results). -/
theorem claim_C10_cache_independence (env : Env) (k : KnlInt) (x a b : ℚ)
    (s₁ s₂ : List (ℕ × List ℚ))
    (h₁ : coherent { mkPolynomial a b with stored := s₁ })
    (h₂ : coherent { mkPolynomial a b with stored := s₂ }) :
    k.evaluate env x { mkPolynomial a b with stored := s₁ } =
      k.evaluate env x { mkPolynomial a b with stored := s₂ } :=
  knl_evaluate_congr env k x rfl rfl rfl rfl h₁ h₂

/-- Witness for C10: the `(4, 0)` expression at `x = 1`, `(a, b) = (2, 1)`
with an empty cache versus a warmed cache holding the degree-2 monomials. -/
theorem claim_C10_witness :
    knl_4_0.evaluate trivEnv 1 { mkPolynomial 2 1 with stored := [] } =
      knl_4_0.evaluate trivEnv 1 { mkPolynomial 2 1 with stored := [(2, [4, 1])] } :=
  claim_C10_cache_independence trivEnv knl_4_0 1 2 1 [] [(2, [4, 1])]
    (by intro pr hpr; exact absurd hpr (List.not_mem_nil pr))
    (by
      intro pr hpr
      rw [List.mem_singleton] at hpr
      subst hpr
      show (mkPolynomial (2:ℚ) 1).make_list 2 = some [4, 1]
      exact make_list_21_2)

theorem mpow_ok {x : ℚ} {n : ℤ} {v : ℚ} (h : mpow x n = .ok v) : v = x ^ n := by
  rw [mpow] at h
  split at h
  · exact Except.noConfusion h
  · exact (Except.ok.inj h).symm

theorem mdiv_ok {x y v : ℚ} (h : mdiv x y = .ok v) : v = x / y := by
  rw [mdiv] at h
  split at h
  · exact Except.noConfusion h
  · exact (Except.ok.inj h).symm

theorem mpow_ne {x : ℚ} (hx : x ≠ 0) (n : ℤ) : mpow x n = .ok (x ^ n) := by
  rw [mpow, if_neg]
  intro hcon
  exact hx hcon.1

theorem mdiv_ne {y : ℚ} (hy : y ≠ 0) (x : ℚ) : mdiv x y = .ok (x / y) := by
  rw [mdiv, if_neg hy]

theorem bind_ok_inv {α β : Type} {e : Except KintError α} {f : α → Except KintError β}
    {r : β} (h : (e >>= f) = .ok r) : ∃ v, e = .ok v ∧ f v = .ok r := by
  cases e with
  | error err => exact Except.noConfusion h
  | ok v => exact ⟨v, rfl, h⟩

/-- Closed form of `KnlInt.evaluate` when the divisors are nonzero: the
guard decides between `insufficientPrecision` and the normalized sum. -/
theorem evaluate_closed (env : Env) (k : KnlInt) (p : Polynomial) (x sc dc ss ds : ℚ)
    (h1 : k.csum.evaluate x p = .ok sc) (h2 : k.cdiff.evaluate x p = .ok dc)
    (h3 : k.ssum.evaluate x p = .ok ss) (h4 : k.sdiff.evaluate x p = .ok ds)
    (hab : p.a * p.b ≠ 0) (hapb : p.a + p.b ≠ 0) (hamb : p.a - p.b ≠ 0) :
    k.evaluate env x p =
      if env.dps - (env.floorLog10 (|specNorm k p * specT1 env k p x sc dc| +
            |specNorm k p * specT2 env k p x sc dc| +
            |specNorm k p * specT3 env k p x ss ds| +
            |specNorm k p * specT4 env k p x ss ds|) -
          env.floorLog10 |specNorm k p * specT1 env k p x sc dc +
            specNorm k p * specT2 env k p x sc dc +
            specNorm k p * specT3 env k p x ss ds +
            specNorm k p * specT4 env k p x ss ds|) < 13
      then .error .insufficientPrecision
      else .ok (specNorm k p * specT1 env k p x sc dc +
        specNorm k p * specT2 env k p x sc dc +
        specNorm k p * specT3 env k p x ss ds +
        specNorm k p * specT4 env k p x ss ds) := by
  simp only [KnlInt.evaluate, h1, h2, h3, h4, ok_bind, mpow_ne hab, mpow_ne hapb,
    mpow_ne hamb, mdiv_ne (zpow_ne_zero _ hapb), mdiv_ne (zpow_ne_zero _ hamb),
    mdiv_ne (zpow_ne_zero _ hab), specNorm, specT1, specT2, specT3, specT4, pure_except]

theorem part40_csum_one : knl_4_0.csum.evaluate 1 (mkPolynomial 2 1) = .ok 0 := rfl

theorem part40_cdiff_one : knl_4_0.cdiff.evaluate 1 (mkPolynomial 2 1) = .ok (-4) := by
  norm_num [knl_4_0, Part.evaluate, sumTerms, Term.evaluate, Term.abmCalc, mpow, mdiv,
    Polynomial.eval_poly, Polynomial.get_list, Polynomial.make_list, lookupStored,
    setIdx0, cumprod, cumprodAux, List.replicate, ok_bind, error_bind, pure_except,
    mkPolynomial]

theorem part40_ssum_one : knl_4_0.ssum.evaluate 1 (mkPolynomial 2 1) = .ok (-8) := by
  norm_num [knl_4_0, Part.evaluate, sumTerms, Term.evaluate, Term.abmCalc, mpow, mdiv,
    Polynomial.eval_poly, Polynomial.get_list, Polynomial.make_list, lookupStored,
    setIdx0, cumprod, cumprodAux, List.replicate, ok_bind, error_bind, pure_except,
    mkPolynomial]

theorem part40_sdiff_one : knl_4_0.sdiff.evaluate 1 (mkPolynomial 2 1) = .ok (-6) := by
  norm_num [knl_4_0, Part.evaluate, sumTerms, Term.evaluate, Term.abmCalc, mpow, mdiv,
    Polynomial.eval_poly, Polynomial.get_list, Polynomial.make_list, lookupStored,
    setIdx0, cumprod, cumprodAux, List.replicate, ok_bind, error_bind, pure_except,
    mkPolynomial]

theorem part40_cdiff_two : knl_4_0.cdiff.evaluate 2 (mkPolynomial 2 1) = .ok (-8) := by
  norm_num [knl_4_0, Part.evaluate, sumTerms, Term.evaluate, Term.abmCalc, mpow, mdiv,
    Polynomial.eval_poly, Polynomial.get_list, Polynomial.make_list, lookupStored,
    setIdx0, cumprod, cumprodAux, List.replicate, ok_bind, error_bind, pure_except,
    mkPolynomial]

theorem part40_ssum_two : knl_4_0.ssum.evaluate 2 (mkPolynomial 2 1) = .ok (-32) := by
  norm_num [knl_4_0, Part.evaluate, sumTerms, Term.evaluate, Term.abmCalc, mpow, mdiv,
    Polynomial.eval_poly, Polynomial.get_list, Polynomial.make_list, lookupStored,
    setIdx0, cumprod, cumprodAux, List.replicate, ok_bind, error_bind, pure_except,
    mkPolynomial]

theorem part40_sdiff_two : knl_4_0.sdiff.evaluate 2 (mkPolynomial 2 1) = .ok (-36) := by
  norm_num [knl_4_0, Part.evaluate, sumTerms, Term.evaluate, Term.abmCalc, mpow, mdiv,
    Polynomial.eval_poly, Polynomial.get_list, Polynomial.make_list, lookupStored,
    setIdx0, cumprod, cumprodAux, List.replicate, ok_bind, error_bind, pure_except,
    mkPolynomial]

/-- The `(4, 0)` antiderivative at `x = 1` in the concrete environment. -/
theorem eval40_one : knl_4_0.evaluate trivEnv 1 (mkPolynomial 2 1) = .ok (7 / 54) := by
  rw [evaluate_closed trivEnv knl_4_0 (mkPolynomial 2 1) 1 0 (-4) (-8) (-6)
    part40_csum_one part40_cdiff_one part40_ssum_one part40_sdiff_one
    (by norm_num) (by norm_num) (by norm_num)]
  rw [if_neg (by norm_num [trivEnv])]
  congr 1
  norm_num [specNorm, specT1, specT2, specT3, specT4, trivEnv, knl_4_0]

/-- The `(4, 0)` antiderivative at `x = 2` in the concrete environment. -/
theorem eval40_two : knl_4_0.evaluate trivEnv 2 (mkPolynomial 2 1) = .ok (29 / 27) := by
  rw [evaluate_closed trivEnv knl_4_0 (mkPolynomial 2 1) 2 0 (-8) (-32) (-36)
    part40_csum_one part40_cdiff_two part40_ssum_two part40_sdiff_two
    (by norm_num) (by norm_num) (by norm_num)]
  rw [if_neg (by norm_num [trivEnv])]
  congr 1
  norm_num [specNorm, specT1, specT2, specT3, specT4, trivEnv, knl_4_0]

/-- C1: whenever evaluation of an integral expression returns a value (the
precision check passed), that value is the sum of the four components
`T1..T4` of the spec, each multiplied by `0.25/(a·b)^(l+1)`, where
`sc, dc, ss, ds` are the values of the four parts at `x`. -/
theorem claim_C1_sum_of_components (env : Env) (k : KnlInt) (p : Polynomial)
    (x sc dc ss ds r : ℚ)
    (h1 : k.csum.evaluate x p = .ok sc) (h2 : k.cdiff.evaluate x p = .ok dc)
    (h3 : k.ssum.evaluate x p = .ok ss) (h4 : k.sdiff.evaluate x p = .ok ds)
    (hr : k.evaluate env x p = .ok r) :
    r = specNorm k p * specT1 env k p x sc dc + specNorm k p * specT2 env k p x sc dc +
      specNorm k p * specT3 env k p x ss ds + specNorm k p * specT4 env k p x ss ds := by
  rw [KnlInt.evaluate, h1] at hr
  simp only [ok_bind] at hr
  rw [h2] at hr
  simp only [ok_bind] at hr
  rw [h3] at hr
  simp only [ok_bind] at hr
  rw [h4] at hr
  simp only [ok_bind] at hr
  obtain ⟨abl, habl, hr⟩ := bind_ok_inv hr
  obtain ⟨dcp, hdcp, hr⟩ := bind_ok_inv hr
  obtain ⟨cpterm, hcp, hr⟩ := bind_ok_inv hr
  obtain ⟨dcm, hdcm, hr⟩ := bind_ok_inv hr
  obtain ⟨cmterm, hcm, hr⟩ := bind_ok_inv hr
  obtain ⟨dsp, hdsp, hr⟩ := bind_ok_inv hr
  obtain ⟨spterm, hsp, hr⟩ := bind_ok_inv hr
  obtain ⟨dsm, hdsm, hr⟩ := bind_ok_inv hr
  obtain ⟨smterm, hsm, hr⟩ := bind_ok_inv hr
  obtain ⟨q, hq, hr⟩ := bind_ok_inv hr
  obtain rfl := mpow_ok habl
  obtain rfl := mpow_ok hdcp
  obtain rfl := mdiv_ok hcp
  obtain rfl := mpow_ok hdcm
  obtain rfl := mdiv_ok hcm
  obtain rfl := mpow_ok hdsp
  obtain rfl := mdiv_ok hsp
  obtain rfl := mpow_ok hdsm
  obtain rfl := mdiv_ok hsm
  obtain rfl := mdiv_ok hq
  split at hr
  · exact Except.noConfusion hr
  · obtain rfl := (Except.ok.inj hr).symm
    simp only [specNorm, specT1, specT2, specT3, specT4]

/-- Witness for C1: expression `(4, 0)` at `x = 1`, `(a, b) = (2, 1)` in the
concrete environment; the returned value `7/54` equals the spec's sum. -/
theorem claim_C1_witness :
    (7 / 54 : ℚ) =
      specNorm knl_4_0 (mkPolynomial 2 1) * specT1 trivEnv knl_4_0 (mkPolynomial 2 1) 1 0 (-4) +
      specNorm knl_4_0 (mkPolynomial 2 1) * specT2 trivEnv knl_4_0 (mkPolynomial 2 1) 1 0 (-4) +
      specNorm knl_4_0 (mkPolynomial 2 1) * specT3 trivEnv knl_4_0 (mkPolynomial 2 1) 1 (-8) (-6) +
      specNorm knl_4_0 (mkPolynomial 2 1) * specT4 trivEnv knl_4_0 (mkPolynomial 2 1) 1 (-8) (-6) :=
  claim_C1_sum_of_components trivEnv knl_4_0 (mkPolynomial 2 1) 1 0 (-4) (-8) (-6) (7 / 54)
    part40_csum_one part40_cdiff_one part40_ssum_one part40_sdiff_one eval40_one


/-- C2: when the remaining precision — working precision minus (order of
magnitude of `Σ|Tᵢ|` minus order of magnitude of `|ΣTᵢ|`) — is below 13
digits, evaluation aborts with `insufficientPrecision` and returns no
numeric result. -/
theorem claim_C2_precision_guard (env : Env) (k : KnlInt) (p : Polynomial)
    (x sc dc ss ds : ℚ)
    (h1 : k.csum.evaluate x p = .ok sc) (h2 : k.cdiff.evaluate x p = .ok dc)
    (h3 : k.ssum.evaluate x p = .ok ss) (h4 : k.sdiff.evaluate x p = .ok ds)
    (hab : p.a * p.b ≠ 0) (hapb : p.a + p.b ≠ 0) (hamb : p.a - p.b ≠ 0)
    (hguard : env.dps - (env.floorLog10 (|specNorm k p * specT1 env k p x sc dc| +
          |specNorm k p * specT2 env k p x sc dc| +
          |specNorm k p * specT3 env k p x ss ds| +
          |specNorm k p * specT4 env k p x ss ds|) -
        env.floorLog10 |specNorm k p * specT1 env k p x sc dc +
          specNorm k p * specT2 env k p x sc dc +
          specNorm k p * specT3 env k p x ss ds +
          specNorm k p * specT4 env k p x ss ds|) < 13) :
    k.evaluate env x p = .error .insufficientPrecision := by
  rw [evaluate_closed env k p x sc dc ss ds h1 h2 h3 h4 hab hapb hamb, if_pos hguard]

/-- Witness for C2: expression `(4, 0)` at `x = 1`, `(a, b) = (2, 1)` with
zero working precision: the guard fires. -/
theorem claim_C2_witness :
    knl_4_0.evaluate lowEnv 1 (mkPolynomial 2 1) = .error .insufficientPrecision :=
  claim_C2_precision_guard lowEnv knl_4_0 (mkPolynomial 2 1) 1 0 (-4) (-8) (-6)
    part40_csum_one part40_cdiff_one part40_ssum_one part40_sdiff_one
    (by norm_num) (by norm_num) (by norm_num) (by norm_num [lowEnv])

theorem degOnly_ok {α : Type} (v : α) : degOnly (.ok v : Except KintError α) := by
  intro err h
  exact Except.noConfusion h

theorem degOnly_error {α : Type} :
    degOnly (.error .degenerateInputs : Except KintError α) := by
  intro err h
  exact (Except.error.inj h).symm

theorem degOnly_mpow (x : ℚ) (n : ℤ) : degOnly (mpow x n) := by
  rw [mpow]
  split
  · exact degOnly_error
  · exact degOnly_ok _

theorem degOnly_mdiv (x y : ℚ) : degOnly (mdiv x y) := by
  rw [mdiv]
  split
  · exact degOnly_error
  · exact degOnly_ok _

theorem degOnly_bind {α β : Type} {e : Except KintError α} {f : α → Except KintError β}
    (he : degOnly e) (hf : ∀ v, degOnly (f v)) : degOnly (e >>= f) := by
  cases e with
  | error err =>
      intro err2 h
      rw [error_bind] at h
      rw [← Except.error.inj h]
      exact he err rfl
  | ok v =>
      rw [ok_bind]
      exact hf v

theorem degOnly_abmCalc (t : Term) (p : Polynomial) : degOnly (t.abmCalc p) := by
  rw [Term.abmCalc]
  split
  · exact degOnly_ok _
  · exact degOnly_mpow _ _

theorem degOnly_term (t : Term) (x a b : ℚ) (hc : t.coeffs ≠ []) :
    degOnly (t.evaluate x (mkPolynomial a b)) := by
  rw [Term.evaluate]
  apply degOnly_bind (degOnly_mpow x t.n)
  intro xn
  apply degOnly_bind (degOnly_abmCalc t _)
  intro abm
  apply degOnly_bind
  · rw [eval_poly_spec a b t.coeffs hc]
    exact degOnly_ok _
  · intro pv
    exact degOnly_ok _

theorem degOnly_sumTerms (x a b : ℚ) (ts : List Term)
    (h : ∀ t ∈ ts, t.coeffs ≠ []) (acc : ℚ) :
    degOnly (sumTerms x (mkPolynomial a b) acc ts) := by
  induction ts generalizing acc with
  | nil => exact degOnly_ok _
  | cons t ts ih =>
      rw [sumTerms]
      apply degOnly_bind (degOnly_term t x a b (h t (List.mem_cons_self _ _)))
      intro v
      exact ih (fun u hu => h u (List.mem_cons_of_mem _ hu)) (acc + v)

theorem degOnly_part (pt : Part) (x a b : ℚ) (h : ∀ t ∈ pt.terms, t.coeffs ≠ []) :
    degOnly (pt.evaluate x (mkPolynomial a b)) :=
  degOnly_sumTerms x a b pt.terms h 0

theorem bind_deg {α β : Type} {e : Except KintError α} {f : α → Except KintError β}
    (he : degOnly e) (hf : ∀ v, f v = .error .degenerateInputs) :
    (e >>= f) = .error .degenerateInputs := by
  cases e with
  | error err => rw [error_bind, he err rfl]
  | ok v => rw [ok_bind]; exact hf v

theorem mdiv_zero (x : ℚ) : mdiv x 0 = .error .degenerateInputs := by
  rw [mdiv, if_pos rfl]

/-- With `a = b` the divisor `(a-b)^(n-2)` collapses to zero and every
well-formed table expression aborts with a zero-division error. -/
theorem evaluate_deg (env : Env) (k : KnlInt) (x a : ℚ) (hwf : wellFormed k) :
    k.evaluate env x (mkPolynomial a a) = .error .degenerateInputs := by
  obtain ⟨h3n, hparts⟩ := hwf
  rw [KnlInt.evaluate]
  apply bind_deg (degOnly_part _ x a a (hparts k.csum (by simp)))
  intro sc
  apply bind_deg (degOnly_part _ x a a (hparts k.cdiff (by simp)))
  intro dc
  apply bind_deg (degOnly_part _ x a a (hparts k.ssum (by simp)))
  intro ss
  apply bind_deg (degOnly_part _ x a a (hparts k.sdiff (by simp)))
  intro ds
  apply bind_deg (degOnly_mpow _ _)
  intro abl
  apply bind_deg (degOnly_mpow _ _)
  intro dcp
  apply bind_deg (degOnly_mdiv _ _)
  intro cpterm
  simp only [mkPolynomial_a, mkPolynomial_b, sub_self]
  have hdcm : mpow 0 (k.n - 2) = .ok 0 := by
    rw [mpow, if_neg, zero_zpow _ (by omega)]
    intro hcon
    omega
  simp only [hdcm, ok_bind, mdiv_zero, error_bind]

theorem lookupTab_mem {n l : ℤ} {k : KnlInt} {L : List ((ℤ × ℤ) × KnlInt)}
    (h : lookupTab n l L = some k) : ∃ pr ∈ L, pr.2 = k := by
  induction L with
  | nil => exact Option.noConfusion h
  | cons e t ih =>
      obtain ⟨⟨kn, kl⟩, kk⟩ := e
      rw [lookupTab] at h
      split at h
      · exact ⟨_, List.mem_cons_self _ _, Option.some.inj h⟩
      · obtain ⟨pr, hm, he⟩ := ih h
        exact ⟨pr, List.mem_cons_of_mem _ hm, he⟩

/-- Every entry of the table satisfies the structural sanity check. -/
theorem table_wellFormed : ∀ pr ∈ integralsList, wellFormed pr.2 := by decide

/-- C3: the definite integral with equal scale parameters `a = b` aborts
with `degenerateInputs` (the divisor `β = a - b` collapses to zero) for
every table entry and all bounds; no numeric result is returned. -/
theorem claim_C3_equal_parameters (env : Env) (n l : ℤ) (k : KnlInt) (a x1 x2 : ℚ)
    (hk : lookupIntegrals n l = some k) :
    definite_integral env n l a a x1 x2 = .error .degenerateInputs := by
  obtain ⟨pr, hm, rfl⟩ := lookupTab_mem hk
  have hwf := table_wellFormed pr hm
  rw [definite_integral, hk]
  simp only [ok_bind, evaluate_deg env pr.2 x1 a hwf, error_bind]

/-- Witness for C3: `(n, l) = (4, 0)`, `a = b = 1`, bounds `1` and `2`. -/
theorem claim_C3_witness :
    definite_integral trivEnv 4 0 1 1 1 2 = .error .degenerateInputs :=
  claim_C3_equal_parameters trivEnv 4 0 knl_4_0 1 1 2 (by rfl)

/-- C5: the facade's definite integral is `F(x_upper) - F(x_lower)` where
`F` is the antiderivative value at each bound, both computed with one
shared evaluation context for `(a, b)`. -/
theorem claim_C5_definite_integral (env : Env) (n l : ℤ) (k : KnlInt)
    (a b x1 x2 r1 r2 : ℚ) (hk : lookupIntegrals n l = some k)
    (he1 : k.evaluate env x1 (mkPolynomial a b) = .ok r1)
    (he2 : k.evaluate env x2 (mkPolynomial a b) = .ok r2) :
    definite_integral env n l a b x1 x2 = .ok (r2 - r1) := by
  rw [definite_integral, hk]
  simp only [ok_bind, he1, he2, pure_except]

/-- Witness for C5: `(n, l) = (4, 0)`, `(a, b) = (2, 1)`, bounds `1, 2`:
`F(1) = 7/54`, `F(2) = 29/27`, difference `29/27 - 7/54`. -/
theorem claim_C5_witness :
    definite_integral trivEnv 4 0 2 1 1 2 = .ok ((29 / 27 : ℚ) - 7 / 54) :=
  claim_C5_definite_integral trivEnv 4 0 knl_4_0 2 1 1 2 (7 / 54) (29 / 27)
    (by rfl) eval40_one eval40_two

theorem lookupTab_none (n l : ℤ) (L : List ((ℤ × ℤ) × KnlInt))
    (h : ∀ pr ∈ L, pr.1.1 ≠ n) : lookupTab n l L = none := by
  induction L with
  | nil => rfl
  | cons e t ih =>
      obtain ⟨⟨kn, kl⟩, kk⟩ := e
      rw [lookupTab, if_neg]
      · exact ih (fun pr hm => h pr (List.mem_cons_of_mem _ hm))
      · intro hcon
        exact h _ (List.mem_cons_self _ _) hcon.1.symm

/-- C6 (amended): the integral table has an entry for every
`(n, l) ∈ {4, 6} × [0, 10]`; it has no entry for `n = 2` (that case is
covered by the separate closed form `K2Int`, not by the table). -/
theorem claim_C6_table_coverage :
    (∀ l : ℤ, 0 ≤ l → l ≤ 10 →
      (lookupIntegrals 4 l).isSome = true ∧ (lookupIntegrals 6 l).isSome = true) ∧
    (∀ l : ℤ, lookupIntegrals 2 l = none) := by
  constructor
  · intro l h0 h10
    interval_cases l <;> exact ⟨by rfl, by rfl⟩
  · intro l
    exact lookupTab_none 2 l integralsList (by decide)

/-- C6 counterexample: the claim asserts a table entry exists for every
`n ∈ {2, 4, 6}` with `0 ≤ l ≤ 10`, but lookup of `(2, 0)` fails. -/
theorem claim_C6_cex : lookupIntegrals 2 0 = none := by rfl

/-- Witness for C6 (amended): a hit at `(4, 7)` and the miss at `(2, 3)`. -/
theorem claim_C6_witness :
    (lookupIntegrals 4 7).isSome = true ∧ lookupIntegrals 2 3 = none :=
  ⟨(claim_C6_table_coverage.1 7 (by norm_num) (by norm_num)).1,
    claim_C6_table_coverage.2 3⟩

/-- C7: a definite-integral request for an `(n, l)` pair absent from the
table aborts with `notFound`. -/
theorem claim_C7_not_found (env : Env) (n l : ℤ) (a b x1 x2 : ℚ)
    (h : lookupIntegrals n l = none) :
    definite_integral env n l a b x1 x2 = .error .notFound := by
  rw [definite_integral, h]
  rfl

/-- Witness for C7: the pair `(8, 0)` has no table entry. -/
theorem claim_C7_witness :
    definite_integral trivEnv 8 0 2 1 1 2 = .error .notFound :=
  claim_C7_not_found trivEnv 8 0 2 1 1 2 (by rfl)

end Kint
